import Mathlib

/-!
Shallow embedding of `src/c64_universal_usb_kb.ino` (Commodore 64 Universal
USB Keyboard).  The firmware converts raw scans of the C64 key matrix into
HID key events for one of four selectable targets.  We embed:

* the translation table built by `setKeymap()` as a pure function of the
  target (`keymap`),
* the dispatch handlers `press()` / `release()` as state transformers on the
  modifier/latch globals (`DispState`), emitting a trace of operations on the
  external collaborators (`Op`): sink press/release/releaseAll, EEPROM
  writes, fixed delays, keymap rebuilds and LED-blink notifications,
* the target-validation fragment of `setup()` (`setupTarget`),
* the matrix scan of `loop()` (`scanColsAux` / `scanRow` / `scanPass`) over
  a `ScanState` holding `lastKeyState` and `lastDebounceTime`.

The globals are split into `DispState` (everything `press`/`release` read or
write) and `ScanState` (the per-cell arrays, touched only by `loop()`); the
split mirrors the source's actual access pattern.  `millis()` is modelled as
an externally supplied sample time per row sweep (the inner column loop of
the source contains no delay, so within one row the clock is constant up to
the menu-synthesis delays, which never affect a debounce comparison of the
same row sweep).
-/

namespace C64

/-- Host key identities: printable characters passed as data, plus the named
non-printable keys referenced by macro in the source. -/
inductive Key
  | ch (c : Char)
  | KEY_BACKSPACE
  | KEY_TAB
  | KEY_ENTER
  | KEY_RETURN
  | KEY_ESC
  | KEY_END
  | KEY_HOME
  | KEY_PAGE_UP
  | KEY_PAGE_DOWN
  | KEY_INSERT
  | KEY_DELETE
  | KEY_LEFT_SHIFT
  | KEY_RIGHT_SHIFT
  | KEY_LEFT_CTRL
  | KEY_LEFT_ALT
  | KEY_LEFT_WINDOWS
  | KEY_DOWN_ARROW
  | KEY_UP_ARROW
  | KEY_LEFT_ARROW
  | KEY_RIGHT_ARROW
  | KEY_F1
  | KEY_F2
  | KEY_F3
  | KEY_F4
  | KEY_F5
  | KEY_F6
  | KEY_F7
  | KEY_F8
  | KEY_F9
  | KEY_F10
  | KEY_F11
  | KEY_F12
  deriving DecidableEq

/-- Operations on the external collaborators, in emission order. -/
inductive Op
  | sinkPress (k : Key)
  | sinkRelease (k : Key)
  | sinkReleaseAll
  | eepromWrite (slot val : Nat)
  | delayMs (n : Nat)
  | rebuildKeymap (t : Nat)
  | blink (times : Nat)
  deriving DecidableEq

-- Keymap target constants (see the #define block of the source)
def ASCII : Nat := 1
def VICE2_BMC64 : Nat := 2
def VICE3 : Nat := 3
def MISTER : Nat := 4
def MAXTARGETS : Nat := 4
def debounceDelay : Nat := 5

/-- The default (VICE 3.x positional) key mapping assigned first by
`setKeymap()`; unassigned cells keep the zero-initialised char. -/
def baseKeymap (pos : Nat) : Key :=
  if pos = 71 then .ch '`'
  else if pos = 70 then .ch '1'
  else if pos = 73 then .ch '2'
  else if pos = 10 then .ch '3'
  else if pos = 13 then .ch '4'
  else if pos = 20 then .ch '5'
  else if pos = 23 then .ch '6'
  else if pos = 30 then .ch '7'
  else if pos = 33 then .ch '8'
  else if pos = 40 then .ch '9'
  else if pos = 43 then .ch '0'
  else if pos = 50 then .ch '-'
  else if pos = 53 then .ch '='
  else if pos = 60 then .KEY_END
  else if pos = 63 then .KEY_HOME
  else if pos = 0 then .KEY_BACKSPACE
  else if pos = 72 then .KEY_TAB
  else if pos = 76 then .ch 'q'
  else if pos = 11 then .ch 'w'
  else if pos = 16 then .ch 'e'
  else if pos = 21 then .ch 'r'
  else if pos = 26 then .ch 't'
  else if pos = 31 then .ch 'y'
  else if pos = 36 then .ch 'u'
  else if pos = 41 then .ch 'i'
  else if pos = 46 then .ch 'o'
  else if pos = 51 then .ch 'p'
  else if pos = 56 then .ch '['
  else if pos = 61 then .ch ']'
  else if pos = 66 then .ch '\\'
  else if pos = 68 then .KEY_PAGE_UP
  else if pos = 77 then .KEY_ESC
  else if pos = 17 then .KEY_LEFT_SHIFT
  else if pos = 12 then .ch 'a'
  else if pos = 15 then .ch 's'
  else if pos = 22 then .ch 'd'
  else if pos = 25 then .ch 'f'
  else if pos = 32 then .ch 'g'
  else if pos = 35 then .ch 'h'
  else if pos = 42 then .ch 'j'
  else if pos = 45 then .ch 'k'
  else if pos = 52 then .ch 'l'
  else if pos = 55 then .ch ';'
  else if pos = 62 then .ch '\''
  else if pos = 65 then .KEY_PAGE_DOWN
  else if pos = 1 then .KEY_ENTER
  else if pos = 75 then .KEY_LEFT_CTRL
  else if pos = 14 then .ch 'z'
  else if pos = 27 then .ch 'x'
  else if pos = 24 then .ch 'c'
  else if pos = 37 then .ch 'v'
  else if pos = 34 then .ch 'b'
  else if pos = 47 then .ch 'n'
  else if pos = 44 then .ch 'm'
  else if pos = 57 then .ch ','
  else if pos = 54 then .ch '.'
  else if pos = 67 then .ch '/'
  else if pos = 64 then .KEY_RIGHT_SHIFT
  else if pos = 7 then .KEY_DOWN_ARROW
  else if pos = 2 then .KEY_RIGHT_ARROW
  else if pos = 74 then .ch ' '
  else if pos = 4 then .KEY_F1
  else if pos = 5 then .KEY_F3
  else if pos = 6 then .KEY_F5
  else if pos = 3 then .KEY_F7
  else .ch (Char.ofNat 0)

/-- Target-specific overrides applied by the `switch (target)` of
`setKeymap()` for `case ASCII`. -/
def asciiOverride (pos : Nat) : Option Key :=
  if pos = 50 then some (.ch '+')
  else if pos = 53 then some (.ch '-')
  else if pos = 60 then some (.ch '\\')
  else if pos = 72 then some .KEY_LEFT_CTRL
  else if pos = 56 then some (.ch '@')
  else if pos = 61 then some (.ch '*')
  else if pos = 66 then some (.ch '^')
  else if pos = 68 then some .KEY_TAB
  else if pos = 55 then some (.ch ':')
  else if pos = 62 then some (.ch ';')
  else if pos = 65 then some (.ch '=')
  else if pos = 75 then some .KEY_LEFT_ALT
  else none

/-- Overrides for `case VICE2_BMC64`. -/
def vice2Override (pos : Nat) : Option Key :=
  if pos = 60 then some .KEY_INSERT
  else if pos = 66 then some .KEY_DELETE
  else if pos = 65 then some (.ch '\\')
  else none

/-- Overrides for `case MISTER`. -/
def misterOverride (pos : Nat) : Option Key :=
  if pos = 50 then some (.ch '=')
  else if pos = 53 then some (.ch '-')
  else if pos = 60 then some (.ch '\\')
  else if pos = 72 then some .KEY_LEFT_CTRL
  else if pos = 66 then some .KEY_F9
  else if pos = 68 then some .KEY_F11
  else if pos = 65 then some .KEY_F10
  else if pos = 75 then some .KEY_LEFT_ALT
  else none

/-- The override patch selected by the `switch (target)` of `setKeymap()`
(the default branch of that switch patches nothing). -/
def overrideFor (t pos : Nat) : Option Key :=
  if t = ASCII then asciiOverride pos
  else if t = VICE2_BMC64 then vice2Override pos
  else if t = MISTER then misterOverride pos
  else none

/-- The translation table as a pure function of the target: `setKeymap()`
assigns the full base map and then applies the active target's override
patch, so the resulting array is this function of `target`. -/
def keymap (t pos : Nat) : Key :=
  (overrideFor t pos).getD (baseKeymap pos)

/-- The modifier/latch globals read and written by `press()`/`release()`:
`lShifted`, `rShifted`, `ctrlPressed`, `cmdrPressed`, `enterMenu`,
`pageScr`, `clrPressed`, the per-key `shifted[80]` latch array and the
active `target`. -/
structure DispState where
  lShifted : Bool
  rShifted : Bool
  ctrlPressed : Bool
  cmdrPressed : Bool
  enterMenu : Bool
  pageScr : Bool
  clrPressed : Bool
  shifted : Nat → Bool
  target : Nat

/-- `shiftedKey()`. -/
def shiftedKey (d : DispState) : Bool :=
  d.lShifted || d.rShifted

/-- `misterOrASCII()`. -/
def misterOrASCII (d : DispState) : Bool :=
  d.target = MISTER || d.target = ASCII

/-- `unshift()`: temporarily releases the sink's shift keys without touching
the `lShifted`/`rShifted` flags. -/
def unshiftOps (d : DispState) : List Op :=
  (if d.lShifted then [Op.sinkRelease .KEY_LEFT_SHIFT] else []) ++
  (if d.rShifted then [Op.sinkRelease .KEY_RIGHT_SHIFT] else [])

/-- Set the per-key `shifted[]` latch. -/
def setShifted (d : DispState) (key : Nat) (b : Bool) : DispState :=
  { d with shifted := Function.update d.shifted key b }

/-- The new target computed by the `C=+F1` handler of `press()`: Ctrl
forces 1; Shift decrements wrapping below 1 to `MAXTARGETS`; otherwise
increment wrapping above `MAXTARGETS` to 1. -/
def cycledTarget (d : DispState) : Nat :=
  if d.ctrlPressed then 1
  else if shiftedKey d then
    (if d.target - 1 < 1 then MAXTARGETS else d.target - 1)
  else
    (if d.target + 1 > MAXTARGETS then 1 else d.target + 1)

/-- `press(uint8_t key)`: one switch case per special position, defaulting
to the literal keymap entry; returns the updated globals and the emitted
operation trace. -/
def press (key : Nat) (d : DispState) : DispState × List Op :=
  if key = 23 then -- 6
    if shiftedKey d && misterOrASCII d then
      (setShifted d 23 true, [Op.sinkPress (.ch '&')])
    else (d, [Op.sinkPress (keymap d.target 23)])
  else if key = 30 then -- 7
    if shiftedKey d then
      let d' := setShifted d 30 true
      if d.target = MISTER then (d', [Op.sinkPress (.ch '^')])
      else if d.target = ASCII then
        (d', unshiftOps d ++ [Op.sinkPress (.ch '\'')])
      else (d', [Op.sinkPress (keymap d.target 30)])
    else (d, [Op.sinkPress (keymap d.target 30)])
  else if key = 33 then -- 8
    if shiftedKey d && misterOrASCII d then
      (setShifted d 33 true, [Op.sinkPress (.ch '(')])
    else (d, [Op.sinkPress (keymap d.target 33)])
  else if key = 40 then -- 9
    if shiftedKey d && misterOrASCII d then
      (setShifted d 40 true, [Op.sinkPress (.ch ')')])
    else (d, [Op.sinkPress (keymap d.target 40)])
  else if key = 43 then -- 0
    (d, unshiftOps d ++ [Op.sinkPress (keymap d.target 43)])
  else if key = 0 then -- DEL
    if d.target = ASCII && shiftedKey d then
      (setShifted d 0 true, unshiftOps d ++ [Op.sinkPress .KEY_DELETE])
    else (d, [Op.sinkPress .KEY_BACKSPACE])
  else if key = 1 then -- RETURN
    (d, [Op.sinkPress .KEY_RETURN])
  else if key = 2 then -- CRSRRT
    if shiftedKey d then
      (setShifted d 2 true,
        (if d.target = ASCII then unshiftOps d else []) ++
        [Op.sinkPress .KEY_LEFT_ARROW])
    else (d, [Op.sinkPress .KEY_RIGHT_ARROW])
  else if key = 3 then -- F7
    if d.target = MISTER then
      -- Special handler: C=+F7/F12 opens the MiSTer menu
      if d.cmdrPressed then
        ({ d with enterMenu := true },
          [Op.sinkRelease .KEY_LEFT_ALT, Op.delayMs 25,
           Op.sinkPress .KEY_F12, Op.delayMs 25,
           Op.sinkPress .KEY_LEFT_ALT])
      else (d, [Op.sinkPress .KEY_F7])
    else if d.target = ASCII then
      -- Special handler: C=+F7 is the (Left) Windows key
      if d.cmdrPressed then
        ({ d with enterMenu := true },
          [Op.sinkRelease .KEY_LEFT_ALT, Op.sinkPress .KEY_LEFT_WINDOWS])
      else if shiftedKey d then
        (setShifted d 3 true, unshiftOps d ++ [Op.sinkPress .KEY_F8])
      else (d, [Op.sinkPress .KEY_F7])
    else (d, [Op.sinkPress .KEY_F7])
  else if key = 4 then -- F1
    -- Special handler: C=+F1 rotates keyboard targets
    if d.cmdrPressed then
      let t' := cycledTarget d
      ({ d with target := t' },
        [Op.eepromWrite 0 t', Op.sinkReleaseAll,
         Op.rebuildKeymap t', Op.blink t'])
    else if d.target = ASCII && shiftedKey d then
      (setShifted d 4 true, unshiftOps d ++ [Op.sinkPress .KEY_F2])
    else (d, [Op.sinkPress .KEY_F1])
  else if key = 5 then -- F3
    if d.target = ASCII && shiftedKey d then
      (setShifted d 5 true, unshiftOps d ++ [Op.sinkPress .KEY_F4])
    else (d, [Op.sinkPress .KEY_F3])
  else if key = 6 then -- F5
    if d.target = ASCII && shiftedKey d then
      (setShifted d 6 true, unshiftOps d ++ [Op.sinkPress .KEY_F6])
    else (d, [Op.sinkPress .KEY_F5])
  else if key = 7 then -- CRSRDN
    if shiftedKey d then
      let d' := setShifted d 7 true
      if d.target = ASCII then
        if d.ctrlPressed then
          -- CTRL+CRSRUP does PAGE UP
          ({ d' with pageScr := true },
            unshiftOps d ++ [Op.sinkRelease .KEY_LEFT_CTRL,
                             Op.sinkPress .KEY_PAGE_UP])
        else (d', unshiftOps d ++ [Op.sinkPress .KEY_UP_ARROW])
      else (d', [Op.sinkPress .KEY_UP_ARROW])
    else
      if d.target = ASCII then
        if d.ctrlPressed then
          -- CTRL+CRSRDN does PAGE DOWN
          ({ d with pageScr := true },
            [Op.sinkRelease .KEY_LEFT_CTRL, Op.sinkPress .KEY_PAGE_DOWN])
        else (d, [Op.sinkPress .KEY_DOWN_ARROW])
      else (d, [Op.sinkPress .KEY_DOWN_ARROW])
  else if key = 17 then -- LSHIFT
    ({ d with lShifted := true }, [Op.sinkPress .KEY_LEFT_SHIFT])
  else if key = 55 then -- :
    if d.target = ASCII && shiftedKey d then
      (setShifted d 55 true, unshiftOps d ++ [Op.sinkPress (.ch '[')])
    else (d, [Op.sinkPress (keymap d.target 55)])
  else if key = 56 then -- @
    if d.target = ASCII && shiftedKey d then
      (setShifted d 56 true, [Op.sinkPress (.ch '{')])
    else (d, [Op.sinkPress (keymap d.target 56)])
  else if key = 60 then -- pound sign
    if d.target = VICE3 then (d, [Op.sinkPress .KEY_END])
    else if d.target = VICE2_BMC64 then (d, [Op.sinkPress .KEY_INSERT])
    else (d, [Op.sinkPress (keymap d.target 60)])
  else if key = 61 then -- *
    if d.target = ASCII && shiftedKey d then
      (setShifted d 61 true, [Op.sinkPress (.ch '}')])
    else (d, [Op.sinkPress (keymap d.target 61)])
  else if key = 62 then -- ;
    if d.target = ASCII && shiftedKey d then
      (setShifted d 62 true, unshiftOps d ++ [Op.sinkPress (.ch ']')])
    else (d, [Op.sinkPress (keymap d.target 62)])
  else if key = 63 then -- HOME
    if d.target = ASCII && shiftedKey d then
      ({ d with clrPressed := true },
        unshiftOps d ++ [Op.sinkPress .KEY_END])
    else (d, [Op.sinkPress .KEY_HOME])
  else if key = 64 then -- RSHIFT
    ({ d with rShifted := true }, [Op.sinkPress .KEY_RIGHT_SHIFT])
  else if key = 65 then -- =
    let pre := if d.target = ASCII then unshiftOps d else []
    if d.target = VICE3 then (d, pre ++ [Op.sinkPress .KEY_PAGE_DOWN])
    else if d.target = MISTER then (d, pre ++ [Op.sinkPress .KEY_F10])
    else (d, pre ++ [Op.sinkPress (keymap d.target 65)])
  else if key = 66 then -- up arrow symbol
    if d.target = MISTER then (d, [Op.sinkPress .KEY_F9])
    else if d.target = VICE2_BMC64 then (d, [Op.sinkPress .KEY_DELETE])
    else (d, [Op.sinkPress (keymap d.target 66)])
  else if key = 68 then -- RESTORE
    if d.target = MISTER then (d, [Op.sinkPress .KEY_F11])
    else if d.target = ASCII then (d, [Op.sinkPress .KEY_TAB])
    else (d, [Op.sinkPress .KEY_PAGE_UP])
  else if key = 72 then -- CTRL
    let d' := { d with ctrlPressed := true }
    if d.target = VICE3 || d.target = VICE2_BMC64 then
      (d', [Op.sinkPress .KEY_TAB])
    else (d', [Op.sinkPress .KEY_LEFT_CTRL])
  else if key = 73 then -- 2
    if d.target = ASCII && shiftedKey d then
      (setShifted d 73 true, [Op.sinkPress (.ch '"')])
    else (d, [Op.sinkPress (keymap d.target 73)])
  else if key = 75 then -- C=
    let d' := { d with cmdrPressed := true }
    if misterOrASCII d then (d', [Op.sinkPress .KEY_LEFT_ALT])
    else (d', [Op.sinkPress .KEY_LEFT_CTRL])
  else if key = 77 then -- STOP
    (d, [Op.sinkPress .KEY_ESC])
  else (d, [Op.sinkPress (keymap d.target key)])

/-- The `switch (key)` body of `release(uint8_t key)`, before the trailing
shift-state restoration. -/
def releaseSwitch (key : Nat) (d : DispState) : DispState × List Op :=
  if key = 23 then -- 6
    if d.shifted 23 then
      (setShifted d 23 false, [Op.sinkRelease (.ch '&')])
    else (d, [Op.sinkRelease (keymap d.target 23)])
  else if key = 30 then -- 7
    if d.shifted 30 then
      let d' := setShifted d 30 false
      if d.target = MISTER then (d', [Op.sinkRelease (.ch '^')])
      else if d.target = ASCII then (d', [Op.sinkRelease (.ch '\'')])
      else (d', [Op.sinkRelease (keymap d.target 30)])
    else (d, [Op.sinkRelease (keymap d.target 30)])
  else if key = 33 then -- 8
    if d.shifted 33 then
      (setShifted d 33 false, [Op.sinkRelease (.ch '(')])
    else (d, [Op.sinkRelease (keymap d.target 33)])
  else if key = 40 then -- 9
    if d.shifted 40 then
      (setShifted d 40 false, [Op.sinkRelease (.ch ')')])
    else (d, [Op.sinkRelease (keymap d.target 40)])
  else if key = 0 then -- DEL
    if d.target = ASCII && d.shifted 0 then
      (setShifted d 0 false, [Op.sinkRelease .KEY_DELETE])
    else (d, [Op.sinkRelease .KEY_BACKSPACE])
  else if key = 1 then -- RETURN
    (d, [Op.sinkRelease .KEY_RETURN])
  else if key = 2 then -- CRSRRT
    if d.shifted 2 then
      (setShifted d 2 false, [Op.sinkRelease .KEY_LEFT_ARROW])
    else (d, [Op.sinkRelease .KEY_RIGHT_ARROW])
  else if key = 3 then -- F7
    if d.target = MISTER then
      -- Special handler: Ctrl+F7/F12 opens the MiSTer menu (this case ends
      -- with a break in the source)
      if d.enterMenu then
        ({ d with enterMenu := false }, [Op.sinkRelease .KEY_F12])
      else (d, [Op.sinkRelease .KEY_F7])
    else if d.target = ASCII then
      -- The source's `case ASCII` has no break before `default`, so after
      -- its own if/else chain control falls through and KEY_F7 is released
      -- a second time
      let r :=
        if d.enterMenu then
          ({ d with enterMenu := false }, [Op.sinkRelease .KEY_LEFT_WINDOWS])
        else if d.shifted 3 then
          (setShifted d 3 false, [Op.sinkRelease .KEY_F8])
        else (d, [Op.sinkRelease .KEY_F7])
      (r.1, r.2 ++ [Op.sinkRelease .KEY_F7])
    else (d, [Op.sinkRelease .KEY_F7])
  else if key = 4 then -- F1
    if d.target = ASCII && d.shifted 4 then
      (setShifted d 4 false, [Op.sinkRelease .KEY_F2])
    else (d, [Op.sinkRelease .KEY_F1])
  else if key = 5 then -- F3
    if d.target = ASCII && d.shifted 5 then
      (setShifted d 5 false, [Op.sinkRelease .KEY_F4])
    else (d, [Op.sinkRelease .KEY_F3])
  else if key = 6 then -- F5
    if d.target = ASCII && d.shifted 6 then
      (setShifted d 6 false, [Op.sinkRelease .KEY_F6])
    else (d, [Op.sinkRelease .KEY_F5])
  else if key = 7 then -- CRSRDN
    if d.shifted 7 then
      let d' := setShifted d 7 false
      if d.pageScr && d.target = ASCII then
        ({ d' with pageScr := false },
          [Op.sinkRelease .KEY_PAGE_UP] ++
          (if d.ctrlPressed then [Op.sinkPress .KEY_LEFT_CTRL] else []))
      else (d', [Op.sinkRelease .KEY_UP_ARROW])
    else
      if d.pageScr && d.target = ASCII then
        ({ d with pageScr := false },
          [Op.sinkRelease .KEY_PAGE_DOWN] ++
          (if d.ctrlPressed then [Op.sinkPress .KEY_LEFT_CTRL] else []))
      else (d, [Op.sinkRelease .KEY_DOWN_ARROW])
  else if key = 17 then -- LSHIFT
    ({ d with lShifted := false }, [Op.sinkRelease .KEY_LEFT_SHIFT])
  else if key = 55 then -- :
    if d.target = ASCII && d.shifted 55 then
      (setShifted d 55 false, [Op.sinkRelease (.ch '[')])
    else (d, [Op.sinkRelease (keymap d.target 55)])
  else if key = 56 then -- @
    if d.target = ASCII && d.shifted 56 then
      (setShifted d 56 false, [Op.sinkRelease (.ch '{')])
    else (d, [Op.sinkRelease (keymap d.target 56)])
  else if key = 60 then -- pound sign
    if d.target = VICE3 then (d, [Op.sinkRelease .KEY_END])
    else if d.target = VICE2_BMC64 then (d, [Op.sinkRelease .KEY_INSERT])
    else (d, [Op.sinkRelease (keymap d.target 60)])
  else if key = 61 then -- *
    if d.target = ASCII && d.shifted 61 then
      (setShifted d 61 false, [Op.sinkRelease (.ch '}')])
    else (d, [Op.sinkRelease (keymap d.target 61)])
  else if key = 62 then -- ;
    if d.target = ASCII && d.shifted 62 then
      (setShifted d 62 false, [Op.sinkRelease (.ch ']')])
    else (d, [Op.sinkRelease (keymap d.target 62)])
  else if key = 63 then -- HOME
    if d.clrPressed && d.target = ASCII then
      ({ d with clrPressed := false }, [Op.sinkRelease .KEY_END])
    else (d, [Op.sinkRelease .KEY_HOME])
  else if key = 64 then -- RSHIFT
    ({ d with rShifted := false }, [Op.sinkRelease .KEY_RIGHT_SHIFT])
  else if key = 65 then -- =
    if d.target = VICE3 then (d, [Op.sinkRelease .KEY_PAGE_DOWN])
    else if d.target = MISTER then (d, [Op.sinkRelease .KEY_F10])
    else (d, [Op.sinkRelease (keymap d.target 65)])
  else if key = 66 then -- up arrow symbol
    if d.target = MISTER then (d, [Op.sinkRelease .KEY_F9])
    else if d.target = VICE2_BMC64 then (d, [Op.sinkRelease .KEY_DELETE])
    else (d, [Op.sinkRelease (keymap d.target 66)])
  else if key = 68 then -- RESTORE
    if d.target = MISTER then (d, [Op.sinkRelease .KEY_F11])
    else if d.target = ASCII then (d, [Op.sinkRelease .KEY_TAB])
    else (d, [Op.sinkRelease .KEY_PAGE_UP])
  else if key = 72 then -- CTRL
    let d' := { d with ctrlPressed := false }
    if d.target = VICE3 || d.target = VICE2_BMC64 then
      (d', [Op.sinkRelease .KEY_TAB])
    else (d', [Op.sinkRelease .KEY_LEFT_CTRL])
  else if key = 73 then -- 2
    if d.target = ASCII && d.shifted 73 then
      (setShifted d 73 false, [Op.sinkRelease (.ch '"')])
    else (d, [Op.sinkRelease (keymap d.target 73)])
  else if key = 75 then -- C=
    let d' := { d with cmdrPressed := false }
    if misterOrASCII d then (d', [Op.sinkRelease .KEY_LEFT_ALT])
    else (d', [Op.sinkRelease .KEY_LEFT_CTRL])
  else if key = 77 then -- STOP
    (d, [Op.sinkRelease .KEY_ESC])
  else (d, [Op.sinkRelease (keymap d.target key)])

/-- `release(uint8_t key)`: the switch body followed by the unconditional
restoration of the SHIFTed keyboard state at the end of the handler. -/
def release (key : Nat) (d : DispState) : DispState × List Op :=
  let r := releaseSwitch key d
  (r.1, r.2 ++
    (if r.1.lShifted then [Op.sinkPress .KEY_LEFT_SHIFT] else []) ++
    (if r.1.rShifted then [Op.sinkPress .KEY_RIGHT_SHIFT] else []))

/-- The EEPROM target-validation fragment of `setup()`: the stored byte is
loaded; if it is outside `1..MAXTARGETS` the target resets to 1 and that
default is written back. -/
def setupTarget (stored : Nat) : Nat × List Op :=
  if stored < 1 || stored > MAXTARGETS then (1, [Op.eepromWrite 0 1])
  else (stored, [])

/-- The per-cell scan arrays touched only by `loop()`: `lastKeyState[80]`
and `lastDebounceTime[80]`, plus the dispatch globals. -/
structure ScanState where
  lastKeyState : Nat → Bool
  lastDebounceTime : Nat → Nat
  disp : DispState

/-- The inner column loop of `loop()` for one row: `raw pos` is the sampled
down-state of the matrix cell at position `pos` (`!digitalRead` of its
column while this row is driven low), `now` the `millis()` sample.  Returns
the updated state, the emitted trace, and the final value of the `thisKey`
global when the loop exits (by the column-8 break or by exhaustion), which
the source then uses for the end-of-row `lastDebounceTime` write. -/
def scanColsAux (row : Nat) (raw : Nat → Bool) (now : Nat) :
    List Nat → ScanState → Nat → ScanState × List Op × Nat
  | [], s, lastKey => (s, [], lastKey)
  | col :: rest, s, _ =>
    let thisKey := col + row * 10
    let isKeyDown := raw thisKey
    -- Filter column 8, ignoring all except RESTORE because GND registers
    -- every row
    if thisKey % 10 = 8 ∧ thisKey ≠ 68 then (s, [], thisKey)
    else if now < s.lastDebounceTime thisKey + debounceDelay then
      scanColsAux row raw now rest s thisKey
    else
      -- Key currently down and was not before: toggle on and press
      let r1 :=
        if isKeyDown ∧ s.lastKeyState thisKey = false then
          let p := press thisKey s.disp
          ({ s with lastKeyState := Function.update s.lastKeyState thisKey true,
                    disp := p.1 }, p.2)
        else (s, [])
      -- Key NOT down but WAS before: toggle off and release
      let r2 :=
        if ¬ isKeyDown ∧ r1.1.lastKeyState thisKey = true then
          let q := release thisKey r1.1.disp
          ({ r1.1 with
              lastKeyState := Function.update r1.1.lastKeyState thisKey false,
              disp := q.1 }, q.2)
        else (r1.1, [])
      let r3 := scanColsAux row raw now rest r2.1 thisKey
      (r3.1, r1.2 ++ r2.2 ++ r3.2.1, r3.2.2)

/-- One row of `loop()`: scan columns 0..8, then write `lastDebounceTime`
at the exit value of `thisKey` and settle for 1 ms. -/
def scanRow (row : Nat) (raw : Nat → Bool) (now : Nat) (s : ScanState)
    (lastKey : Nat) : ScanState × List Op × Nat :=
  let r := scanColsAux row raw now [0, 1, 2, 3, 4, 5, 6, 7, 8] s lastKey
  ({ r.1 with
      lastDebounceTime := Function.update r.1.lastDebounceTime r.2.2 now },
    r.2.1 ++ [Op.delayMs 1], r.2.2)

/-- One full invocation of `loop()`: rows 0..7 in order; `times row` is the
`millis()` clock during the sweep of `row` (the clock may advance between
rows because of the 1 ms settle delay and any dispatch delays). -/
def scanPass (raw : Nat → Bool) (times : Nat → Nat) (s : ScanState) :
    ScanState × List Op :=
  let step := fun (acc : ScanState × List Op × Nat) (row : Nat) =>
    let r := scanRow row raw (times row) acc.1 acc.2.2
    (r.1, acc.2.1 ++ r.2.1, r.2.2)
  let r := [0, 1, 2, 3, 4, 5, 6, 7].foldl step (s, [], 0)
  (r.1, r.2.1)

/-- Iterated scan passes: each element supplies the raw matrix samples and
the per-row clock of one `loop()` invocation. -/
def runPasses (ps : List ((Nat → Bool) × (Nat → Nat))) (s : ScanState) :
    ScanState :=
  ps.foldl (fun s p => (scanPass p.1 p.2 s).1) s

/-- Effect of one emitted operation on the sink's (left shift, right shift)
pressed pair: the projection of the HID report onto the two shift keys. -/
def applyShiftOp (p : Bool × Bool) (o : Op) : Bool × Bool :=
  match o with
  | .sinkPress .KEY_LEFT_SHIFT => (true, p.2)
  | .sinkRelease .KEY_LEFT_SHIFT => (false, p.2)
  | .sinkPress .KEY_RIGHT_SHIFT => (p.1, true)
  | .sinkRelease .KEY_RIGHT_SHIFT => (p.1, false)
  | .sinkReleaseAll => (false, false)
  | _ => p

/-- The sink's shift-key pair after a trace of operations. -/
def applyShiftOps (p : Bool × Bool) (ops : List Op) : Bool × Bool :=
  ops.foldl applyShiftOp p

/-- Does the operation store to EEPROM? -/
def isEepromWrite : Op → Bool
  | .eepromWrite _ _ => true
  | _ => false

/-- The EEPROM stores contained in a trace. -/
def eepromWrites (ops : List Op) : List Op :=
  ops.filter isEepromWrite

/-- Is the operation a sink key event (a key going down or up)? -/
def isSinkKeyEvent : Op → Bool
  | .sinkPress _ => true
  | .sinkRelease _ => true
  | _ => false

/-- The sink key events contained in a trace. -/
def sinkKeyEvents (ops : List Op) : List Op :=
  ops.filter isSinkKeyEvent

/-- The logical inverse of one sink operation (down becomes up and
conversely). -/
def invOp : Op → Op
  | .sinkPress k => .sinkRelease k
  | .sinkRelease k => .sinkPress k
  | o => o

/-- The exact logical inverse of an emitted sequence: the reversed sequence
with every down exchanged for an up.  This definition follows the spec's
words (press/release symmetry invariant), to be compared with the traces the
embedded code emits. -/
def invOps (ops : List Op) : List Op :=
  ops.reverse.map invOp

/-- A dispatch state with no key held, no latch set and the given target
(the state after startup once the target is loaded). -/
def idleDisp (t : Nat) : DispState :=
  { lShifted := false, rShifted := false, ctrlPressed := false,
    cmdrPressed := false, enterMenu := false, pageScr := false,
    clrPressed := false, shifted := fun _ => false, target := t }

/-- The scan arrays right after `setup()`: `lastKeyState` all false and the
zero-initialised `lastDebounceTime`. -/
def initScan (t : Nat) : ScanState :=
  { lastKeyState := fun _ => false, lastDebounceTime := fun _ => 0,
    disp := idleDisp t }

/-- Raw matrix frame with exactly one cell down. -/
def rawOnly (key : Nat) : Nat → Bool :=
  fun pos => pos == key

/-- Raw matrix frame with every cell up. -/
def rawNone : Nat → Bool :=
  fun _ => false

/-- Raw matrix frame in which the grounded RESTORE column registers every
row of column 8 simultaneously. -/
def rawCol8 : Nat → Bool :=
  fun pos => pos % 10 == 8

/-- Idle MISTER-target state with left shift held (and the flag set, as the
dispatch engine would have it after the LSHIFT press). -/
def sixPressDisp : DispState :=
  { idleDisp MISTER with lShifted := true }

/-- MISTER-target state in which Shift has been released again but the
`shifted[23]` latch from an earlier alternate-symbol press is still set. -/
def sixReleaseDisp : DispState :=
  { idleDisp MISTER with shifted := fun k => k == 23 }

/-- ASCII-target state with Commodore held. -/
def menuAsciiDisp : DispState :=
  { idleDisp ASCII with cmdrPressed := true }

/-- MISTER-target state with Commodore held. -/
def menuMisterDisp : DispState :=
  { idleDisp MISTER with cmdrPressed := true }

/-- State on target 1 with Commodore and Ctrl held: the `C=+CTRL+F1` reset
trigger fired from the target it resets to. -/
def ctrlResetDisp : DispState :=
  { idleDisp ASCII with cmdrPressed := true, ctrlPressed := true }

/-- A target-cycling trigger state: target `t`, Commodore held, Ctrl and
left Shift as given. -/
def cycFrom (t : Nat) (ctrl sh : Bool) : DispState :=
  { idleDisp t with cmdrPressed := true, ctrlPressed := ctrl, lShifted := sh }

/-! ## Helper lemmas -/

theorem applyShiftOps_append (p : Bool × Bool) (a b : List Op) :
    applyShiftOps p (a ++ b) = applyShiftOps (applyShiftOps p a) b :=
  List.foldl_append _ _ _ _

theorem applyShiftOps_lrestore (p : Bool × Bool) (l : Bool) :
    applyShiftOps p (if l then [Op.sinkPress Key.KEY_LEFT_SHIFT] else []) =
      (l || p.1, p.2) := by
  cases p; cases l <;> rfl

theorem applyShiftOps_rrestore (p : Bool × Bool) (r : Bool) :
    applyShiftOps p (if r then [Op.sinkPress Key.KEY_RIGHT_SHIFT] else []) =
      (p.1, r || p.2) := by
  cases p; cases r <;> rfl

/-- The exit value of `thisKey` does not depend on the accumulated value
passed in, because every iteration of the inner loop overwrites it before
any exit. -/
theorem scanColsAux_acc (row : Nat) (raw : Nat → Bool) (now : Nat)
    (c : Nat) (cs : List Nat) (s : ScanState) (k k' : Nat) :
    scanColsAux row raw now (c :: cs) s k =
      scanColsAux row raw now (c :: cs) s k' := rfl

/-- The exit value of `thisKey` depends only on the row and the column
list, not on the scan state, the raw samples or the clock. -/
theorem scanColsAux_lastKey_irrel (row : Nat) (raw raw' : Nat → Bool)
    (now now' : Nat) :
    ∀ (cols : List Nat) (s s' : ScanState) (k : Nat),
      (scanColsAux row raw now cols s k).2.2 =
      (scanColsAux row raw' now' cols s' k).2.2 := by
  intro cols
  induction cols with
  | nil => intro s s' k; rfl
  | cons c cs ih =>
    intro s s' k
    simp only [scanColsAux]
    split_ifs <;> first | rfl | exact ih _ _ _

/-- The inner column loop never writes `lastDebounceTime`; only the
end-of-row statement of `loop()` does. -/
theorem scanColsAux_lastDebounceTime (row : Nat) (raw : Nat → Bool)
    (now : Nat) :
    ∀ (cols : List Nat) (s : ScanState) (k : Nat),
      (scanColsAux row raw now cols s k).1.lastDebounceTime =
        s.lastDebounceTime := by
  intro cols
  induction cols with
  | nil => intro s k; rfl
  | cons c cs ih =>
    intro s k
    simp only [scanColsAux]
    split_ifs <;> simp [ih]

/-- Column-8 cells other than RESTORE are filtered before dispatch: their
`lastKeyState` entry is never toggled by the inner loop. -/
theorem scanColsAux_keyState_col8 (row : Nat) (raw : Nat → Bool) (now : Nat)
    (pos : Nat) (h8 : pos % 10 = 8) (h68 : pos ≠ 68) :
    ∀ (cols : List Nat) (s : ScanState) (k : Nat),
      (scanColsAux row raw now cols s k).1.lastKeyState pos =
        s.lastKeyState pos := by
  intro cols
  induction cols with
  | nil => intro s k; rfl
  | cons c cs ih =>
    intro s k
    simp only [scanColsAux]
    split_ifs <;>
      simp_all [ih, Function.update_apply] <;>
      omega

/-- For the full column list 0..8 the inner loop always exits with
`thisKey = row*10 + 8`: rows other than 6 break at the column-8 filter and
row 6 (the RESTORE row) runs through column 8 without breaking. -/
theorem scanColsAux_lastKey (row : Nat) (raw : Nat → Bool) (now : Nat)
    (s : ScanState) (k : Nat) (hrow : row < 8) :
    (scanColsAux row raw now [0, 1, 2, 3, 4, 5, 6, 7, 8] s k).2.2 =
      row * 10 + 8 := by
  rw [scanColsAux_acc row raw now 0 _ s k 0,
      scanColsAux_lastKey_irrel row raw rawNone now 100 _ s (initScan 1) 0]
  interval_cases row <;> decide

/-- The end-of-row `lastDebounceTime` write only touches the column-8 cell
of the scanned row. -/
theorem scanRow_ldt (row : Nat) (raw : Nat → Bool) (now : Nat)
    (s : ScanState) (k : Nat) (pos : Nat) (hrow : row < 8)
    (hpos : pos % 10 ≠ 8) :
    (scanRow row raw now s k).1.lastDebounceTime pos =
      s.lastDebounceTime pos := by
  simp only [scanRow]
  rw [Function.update_apply, scanColsAux_lastKey row raw now s k hrow,
      if_neg (by omega)]
  exact congrFun (scanColsAux_lastDebounceTime row raw now _ s k) pos

theorem scanRow_keyState_col8 (row : Nat) (raw : Nat → Bool) (now : Nat)
    (s : ScanState) (k : Nat) (pos : Nat) (h8 : pos % 10 = 8)
    (h68 : pos ≠ 68) :
    (scanRow row raw now s k).1.lastKeyState pos = s.lastKeyState pos := by
  simp only [scanRow]
  exact scanColsAux_keyState_col8 row raw now pos h8 h68 _ s k

theorem scanPass_ldt (raw : Nat → Bool) (times : Nat → Nat) (s : ScanState)
    (pos : Nat) (hpos : pos % 10 ≠ 8) :
    (scanPass raw times s).1.lastDebounceTime pos =
      s.lastDebounceTime pos := by
  simp only [scanPass, List.foldl]
  simp [scanRow_ldt, hpos]

theorem scanPass_keyState_col8 (raw : Nat → Bool) (times : Nat → Nat)
    (s : ScanState) (pos : Nat) (h8 : pos % 10 = 8) (h68 : pos ≠ 68) :
    (scanPass raw times s).1.lastKeyState pos = s.lastKeyState pos := by
  simp only [scanPass, List.foldl]
  simp [scanRow_keyState_col8, h8, h68]

theorem runPasses_ldt (ps : List ((Nat → Bool) × (Nat → Nat)))
    (s : ScanState) (pos : Nat) (hpos : pos % 10 ≠ 8) :
    (runPasses ps s).lastDebounceTime pos = s.lastDebounceTime pos := by
  induction ps generalizing s with
  | nil => rfl
  | cons p ps ih =>
    simp only [runPasses, List.foldl] at *
    rw [ih, scanPass_ldt _ _ _ _ hpos]

/-- The target-cycling branch of `press()` in equation form. -/
theorem press_4_cmdr (d : DispState) (hc : d.cmdrPressed = true) :
    press 4 d =
      ({ d with target := cycledTarget d },
       [Op.eepromWrite 0 (cycledTarget d), Op.sinkReleaseAll,
        Op.rebuildKeymap (cycledTarget d), Op.blink (cycledTarget d)]) := by
  simp [press, hc]

/-! ## Claims -/

/-- C1: the claim states that every MatrixPosition debounces independently,
a raw sample within 5 ms of that position's last accepted transition being
suppressed.  Evaluating the embedded scan loop at the failing input shows
otherwise: position 0's press is accepted during a sweep at t = 100 ms, its
`lastDebounceTime[0]` entry still holds the initial 0 afterwards (the
end-of-row write only ever touches the column-8 cell), and a raw release
sampled at t = 102 ms — 2 ms after the accepted press, well inside the 5 ms
settle window — fires anyway. -/
theorem claim_C1 :
    Op.sinkPress Key.KEY_BACKSPACE ∈
      (scanPass (rawOnly 0) (fun _ => 100) (initScan VICE3)).2 ∧
    (scanPass (rawOnly 0) (fun _ => 100) (initScan VICE3)).1.lastDebounceTime
      0 = 0 ∧
    Op.sinkRelease Key.KEY_BACKSPACE ∈
      (scanPass rawNone (fun _ => 102)
        (scanPass (rawOnly 0) (fun _ => 100) (initScan VICE3)).1).2 := by
  decide

/-- C2 counterexample: the claim's universal part — for every
MatrixPosition the release trace equals the exact logical inverse of the
latest press trace — fails at position 3 on target ASCII: a plain F7 press
emits F7-down, but the release handler falls through its `case ASCII` into
`default` and emits F7-up twice. -/
theorem claim_C2_counterexample :
    (release 3 (press 3 (idleDisp ASCII)).1).2 ≠
      invOps (press 3 (idleDisp ASCII)).2 := by
  decide

/-- C2 (amended): the alternate-symbol decision for position 23 ('6') is
latched in `shifted[23]` at press time and read back at release time, not
re-derived from the current Shift state: pressing 23 with Shift held on
target MISTER emits '&'-down and sets the latch, and any later release of
23 with the latch set emits '&'-up — not '6'-up — even though Shift is no
longer held. -/
theorem claim_C2 (d : DispState) (ht : d.target = MISTER)
    (hs : shiftedKey d = true) :
    (press 23 d).2 = [Op.sinkPress (Key.ch '&')] ∧
    (press 23 d).1.shifted 23 = true ∧
    ∀ d' : DispState, d'.shifted 23 = true → d'.lShifted = false →
      d'.rShifted = false →
      (release 23 d').2 = [Op.sinkRelease (Key.ch '&')] ∧
      (release 23 d').2 = invOps [Op.sinkPress (Key.ch '&')] ∧
      (release 23 d').2 ≠ [Op.sinkRelease (Key.ch '6')] := by
  refine ⟨?_, ?_, ?_⟩
  · simp [press, hs, misterOrASCII, ht, MISTER]
  · simp [press, hs, misterOrASCII, ht, MISTER, setShifted]
  · intro d' hl hls hrs
    refine ⟨?_, ?_, ?_⟩ <;>
      simp [release, releaseSwitch, hl, hls, hrs, invOps, invOp, setShifted]

/-- C2 witness: the amended theorem applied at the concrete MISTER trace
(Shift held at press, Shift released before the release of position 23). -/
theorem claim_C2_witness :
    (press 23 sixPressDisp).2 = [Op.sinkPress (Key.ch '&')] ∧
    (release 23 sixReleaseDisp).2 = [Op.sinkRelease (Key.ch '&')] := by
  have h := claim_C2 sixPressDisp rfl rfl
  exact ⟨h.1, (h.2.2 sixReleaseDisp rfl rfl rfl).1⟩

set_option maxHeartbeats 2000000 in
/-- C3: at the end of processing every release of any key, the left shift
key is re-pressed to the sink when `lShifted` holds and the right shift key
when `rShifted` holds, so the sink's shift-key pair equals exactly the
`lShifted`/`rShifted` flags once the release handler finishes: any
temporary host-shift suppression performed at press time is undone
unconditionally.  The hypotheses say the incoming sink shift pair carries
no stale presses (a sink shift key can be down only while the matching flag
is held) — the only sink states reachable, since press-time handling only
ever releases sink shift keys it later restores. -/
theorem claim_C3 (key : Nat) (d : DispState) (p : Bool × Bool) (hk : key < 80)
    (h1 : p.1 = true → d.lShifted = true)
    (h2 : p.2 = true → d.rShifted = true) :
    applyShiftOps p (release key d).2 =
      ((release key d).1.lShifted, (release key d).1.rShifted) := by
  have h1' : d.lShifted = false → p.1 = false := by
    intro h; cases hp : p.1
    · rfl
    · exact absurd (h1 hp) (by simp [h])
  have h2' : d.rShifted = false → p.2 = false := by
    intro h; cases hp : p.2
    · rfl
    · exact absurd (h2 hp) (by simp [h])
  have hbody : ((releaseSwitch key d).1.lShifted = false →
      (applyShiftOps p (releaseSwitch key d).2).1 = false) ∧
      ((releaseSwitch key d).1.rShifted = false →
      (applyShiftOps p (releaseSwitch key d).2).2 = false) := by
    interval_cases key <;>
      (simp only [releaseSwitch, Nat.reduceEqDiff, reduceIte] <;>
       (try simp_all [applyShiftOps, applyShiftOp, setShifted, keymap,
          overrideFor, asciiOverride, vice2Override, misterOverride,
          baseKeymap]) <;>
       ((try split_ifs) <;>
        (try simp_all [applyShiftOps, applyShiftOp, setShifted, keymap,
           overrideFor, asciiOverride, vice2Override, misterOverride,
           baseKeymap])) <;>
       ((try split_ifs) <;>
        (try simp_all [applyShiftOps, applyShiftOp, setShifted, keymap,
           overrideFor, asciiOverride, vice2Override, misterOverride,
           baseKeymap])))
  obtain ⟨hbl, hbr⟩ := hbody
  simp only [release, applyShiftOps_append, applyShiftOps_lrestore,
    applyShiftOps_rrestore]
  cases hl : (releaseSwitch key d).1.lShifted <;>
  cases hr : (releaseSwitch key d).1.rShifted <;>
    simp_all

/-- C3 witness: releasing position 23 with left Shift held while the sink
shift pair was suppressed to (false, false) ends with the sink's left shift
pressed again, matching the flags exactly. -/
theorem claim_C3_witness :
    applyShiftOps (false, false) (release 23 sixPressDisp).2 =
      ((release 23 sixPressDisp).1.lShifted,
       (release 23 sixPressDisp).1.rShifted) :=
  claim_C3 23 sixPressDisp (false, false) (by decide) (by decide) (by decide)

/-- C4: the claim states that the Commodore+F7 menu chord synthesizes the
target-specific sequence at press and that the latched release emits
precisely its reversal and nothing else.  Evaluating the embedded handlers:
on MISTER both directions hold (Alt-up, 25 ms, F12-down, 25 ms, Alt-down at
press; F12-up alone at release), but on ASCII the release emits
Windows-up *followed by F7-up*, because the `case ASCII` of the release
switch is missing a break and falls through into `default`. -/
theorem claim_C4 :
    (press 3 menuMisterDisp).2 =
      [Op.sinkRelease Key.KEY_LEFT_ALT, Op.delayMs 25,
       Op.sinkPress Key.KEY_F12, Op.delayMs 25,
       Op.sinkPress Key.KEY_LEFT_ALT] ∧
    (press 3 menuMisterDisp).1.enterMenu = true ∧
    (release 3 { menuMisterDisp with enterMenu := true }).2 =
      [Op.sinkRelease Key.KEY_F12] ∧
    (press 3 menuAsciiDisp).2 =
      [Op.sinkRelease Key.KEY_LEFT_ALT, Op.sinkPress Key.KEY_LEFT_WINDOWS] ∧
    (press 3 menuAsciiDisp).1.enterMenu = true ∧
    (release 3 { menuAsciiDisp with enterMenu := true }).2 =
      [Op.sinkRelease Key.KEY_LEFT_WINDOWS, Op.sinkRelease Key.KEY_F7] := by
  decide

/-- C5: a ground-induced activation of every row on the RESTORE column
produces exactly one logical key event.  First conjunct: every column-8
position other than 68 is filtered before dispatch in any scan pass (its
`lastKeyState` cell — toggled exactly when a transition is dispatched — is
never touched).  Second conjunct: from a clean state with all of column 8
reading active, a full sweep emits exactly one sink key event, the press of
the Restore key's mapping. -/
theorem claim_C5 :
    (∀ (raw : Nat → Bool) (times : Nat → Nat) (s : ScanState) (pos : Nat),
        pos % 10 = 8 → pos ≠ 68 →
        (scanPass raw times s).1.lastKeyState pos = s.lastKeyState pos) ∧
    sinkKeyEvents (scanPass rawCol8 (fun _ => 100) (initScan VICE3)).2 =
      [Op.sinkPress Key.KEY_PAGE_UP] := by
  refine ⟨fun raw times s pos h8 h68 =>
    scanPass_keyState_col8 raw times s pos h8 h68, ?_⟩
  decide

/-- C5 witness: the filter conjunct applied at the concrete position 8 with
a concrete pass. -/
theorem claim_C5_witness :
    (scanPass rawNone (fun _ => 0) (initScan ASCII)).1.lastKeyState 8 =
      (initScan ASCII).lastKeyState 8 :=
  claim_C5.1 rawNone (fun _ => 0) (initScan ASCII) 8 rfl (by decide)

/-- C6: pressing F1 (position 4) with Commodore held cycles the target:
Ctrl forces 1 from any state; otherwise Shift decrements wrapping from 1 to
`MAXTARGETS`; otherwise it increments wrapping from `MAXTARGETS` to 1. -/
theorem claim_C6 (d : DispState) (hc : d.cmdrPressed = true)
    (hlo : 1 ≤ d.target) (hhi : d.target ≤ MAXTARGETS) :
    (d.ctrlPressed = true → (press 4 d).1.target = 1) ∧
    (d.ctrlPressed = false → shiftedKey d = true →
      (press 4 d).1.target =
        if d.target = 1 then MAXTARGETS else d.target - 1) ∧
    (d.ctrlPressed = false → shiftedKey d = false →
      (press 4 d).1.target =
        if d.target = MAXTARGETS then 1 else d.target + 1) := by
  rw [press_4_cmdr d hc]
  simp only [cycledTarget, MAXTARGETS] at *
  refine ⟨fun hctl => by simp [hctl], fun hctl hsh => ?_, fun hctl hsh => ?_⟩ <;>
    simp only [hctl, hsh, if_true, if_false, Bool.false_eq_true] <;>
    split_ifs <;>
    simp_all <;>
    omega

/-- C6 witness: from target 4, Commodore+F1 goes to 1; from target 1,
Commodore+Shift+F1 goes to 4; Commodore+Ctrl+F1 from target 3 goes to 1. -/
theorem claim_C6_witness :
    (press 4 (cycFrom MISTER false false)).1.target = 1 ∧
    (press 4 (cycFrom ASCII false true)).1.target = 4 ∧
    (press 4 (cycFrom VICE3 true false)).1.target = 1 := by
  refine ⟨?_, ?_, ?_⟩
  · have h := claim_C6 (cycFrom MISTER false false) rfl (by decide) (by decide)
    simpa using (h.2.2 rfl rfl)
  · have h := claim_C6 (cycFrom ASCII false true) rfl (by decide) (by decide)
    simpa using (h.2.1 rfl rfl)
  · have h := claim_C6 (cycFrom VICE3 true false) rfl (by decide) (by decide)
    simpa using (h.1 rfl)

/-- C7: every target-cycling transition emits, in order: the EEPROM store
of the new target to slot 0, the release of every pressed sink key, the
keymap rebuild for the new target, and the notification (LED blink) with a
count equal to the new target's numeric value, which lies in 1..4. -/
theorem claim_C7 (d : DispState) (hc : d.cmdrPressed = true)
    (hlo : 1 ≤ d.target) (hhi : d.target ≤ MAXTARGETS) :
    (press 4 d).2 =
      [Op.eepromWrite 0 (press 4 d).1.target, Op.sinkReleaseAll,
       Op.rebuildKeymap (press 4 d).1.target,
       Op.blink (press 4 d).1.target] ∧
    1 ≤ (press 4 d).1.target ∧ (press 4 d).1.target ≤ MAXTARGETS := by
  rw [press_4_cmdr d hc]
  refine ⟨rfl, ?_⟩
  simp only [cycledTarget, MAXTARGETS] at *
  split_ifs <;> omega

/-- C7 witness: the transition trace from target 2 with Commodore held. -/
theorem claim_C7_witness :
    (press 4 (cycFrom VICE2_BMC64 false false)).2 =
      [Op.eepromWrite 0 3, Op.sinkReleaseAll, Op.rebuildKeymap 3,
       Op.blink 3] := by
  have h := claim_C7 (cycFrom VICE2_BMC64 false false) rfl (by decide)
    (by decide)
  have ht : (press 4 (cycFrom VICE2_BMC64 false false)).1.target = 3 := by
    decide
  rw [h.1, ht]

/-- C8 counterexample: the claim states the EEPROM slot is never written by
a target-cycling trigger that leaves the target unchanged.  The embedded
`C=+CTRL+F1` handler fired from target 1 leaves the target at 1 and still
emits the store. -/
theorem claim_C8_counterexample :
    (press 4 ctrlResetDisp).1.target = ctrlResetDisp.target ∧
    Op.eepromWrite 0 1 ∈ (press 4 ctrlResetDisp).2 := by
  decide

set_option maxHeartbeats 2000000 in
/-- C8 (amended): the EEPROM slot is written by the dispatch engine only
inside the target-cycling handler and never per scan or by any other press
or release: a `C=+F1` press emits exactly one store (of the new target),
every press without that trigger and every release emits none.  Every
trigger stores unconditionally, so the `C=+CTRL+F1` reset from target 1
writes even though the value is unchanged. -/
theorem claim_C8 :
    (∀ d : DispState, d.cmdrPressed = true →
        eepromWrites (press 4 d).2 = [Op.eepromWrite 0 (press 4 d).1.target]) ∧
    (∀ (key : Nat) (d : DispState), key < 80 →
        ¬(key = 4 ∧ d.cmdrPressed = true) →
        eepromWrites (press key d).2 = []) ∧
    (∀ (key : Nat) (d : DispState), key < 80 →
        eepromWrites (release key d).2 = []) := by
  refine ⟨?_, ?_, ?_⟩
  · intro d hc
    rw [press_4_cmdr d hc]
    rfl
  · intro key d hk hn
    interval_cases key <;>
      (simp only [press, Nat.reduceEqDiff, reduceIte] <;>
       (try simp_all [eepromWrites, isEepromWrite, unshiftOps, setShifted,
          keymap, overrideFor, asciiOverride, vice2Override, misterOverride,
          baseKeymap, List.filter_append]) <;>
       ((try split_ifs) <;>
        (try simp_all [eepromWrites, isEepromWrite, unshiftOps, setShifted,
           keymap, overrideFor, asciiOverride, vice2Override, misterOverride,
           baseKeymap, List.filter_append])))
  · intro key d hk
    interval_cases key <;>
      (simp only [release, releaseSwitch, Nat.reduceEqDiff, reduceIte] <;>
       (try simp_all [eepromWrites, isEepromWrite, unshiftOps, setShifted,
          keymap, overrideFor, asciiOverride, vice2Override, misterOverride,
          baseKeymap, List.filter_append]) <;>
       ((try split_ifs) <;>
        (try simp_all [eepromWrites, isEepromWrite, unshiftOps, setShifted,
           keymap, overrideFor, asciiOverride, vice2Override, misterOverride,
           baseKeymap, List.filter_append])))

/-- C8 witness: the trigger from target 2 stores once, a plain 'w' press
stores nothing, and a plain RETURN release stores nothing. -/
theorem claim_C8_witness :
    eepromWrites (press 4 (cycFrom VICE2_BMC64 false false)).2 =
      [Op.eepromWrite 0 (press 4 (cycFrom VICE2_BMC64 false false)).1.target] ∧
    eepromWrites (press 11 (idleDisp VICE3)).2 = [] ∧
    eepromWrites (release 1 (idleDisp VICE3)).2 = [] :=
  ⟨claim_C8.1 (cycFrom VICE2_BMC64 false false) rfl,
   claim_C8.2.1 11 (idleDisp VICE3) (by decide) (by decide),
   claim_C8.2.2 1 (idleDisp VICE3) (by decide)⟩

/-- C9: at startup an out-of-range stored target byte (outside 1..4) resets
the target to the default 1 and writes that default back to slot 0; an
in-range byte is used unchanged with no rewrite, so a stored target N
reloads as N. -/
theorem claim_C9 (stored : Nat) (hb : stored < 256) :
    ((stored < 1 ∨ stored > MAXTARGETS) →
      setupTarget stored = (1, [Op.eepromWrite 0 1])) ∧
    (1 ≤ stored → stored ≤ MAXTARGETS → setupTarget stored = (stored, [])) := by
  constructor
  · intro h
    simp only [setupTarget, MAXTARGETS] at *
    rw [if_pos]
    simp only [decide_eq_true_eq, Bool.or_eq_true]
    omega
  · intro h1 h4
    simp only [setupTarget, MAXTARGETS] at *
    rw [if_neg]
    simp only [decide_eq_true_eq, Bool.or_eq_true]
    omega

/-- C9 witness: byte 255 resets and rewrites; byte 3 loads unchanged. -/
theorem claim_C9_witness :
    setupTarget 255 = (1, [Op.eepromWrite 0 1]) ∧ setupTarget 3 = (3, []) :=
  ⟨(claim_C9 255 (by decide)).1 (by decide),
   (claim_C9 3 (by decide)).2 (by decide) (by decide)⟩

/-- C10: the end-of-row debounce-timestamp write always targets the
column-8 position of the row just scanned (the inner loop exits with
`thisKey = row*10 + 8` whether it broke at the column-8 filter or completed
the RESTORE row), so every MatrixPosition with column index below 8 keeps
its initial `lastDebounceTime` through any number of scan passes. -/
theorem claim_C10 :
    (∀ (row : Nat) (raw : Nat → Bool) (now : Nat) (s : ScanState) (k : Nat),
        row < 8 →
        (scanColsAux row raw now [0, 1, 2, 3, 4, 5, 6, 7, 8] s k).2.2 =
          row * 10 + 8) ∧
    (∀ pos : Nat, pos % 10 < 8 →
      ∀ (ps : List ((Nat → Bool) × (Nat → Nat))) (s : ScanState),
        (runPasses ps s).lastDebounceTime pos = s.lastDebounceTime pos) :=
  ⟨fun row raw now s k h => scanColsAux_lastKey row raw now s k h,
   fun pos h ps s => runPasses_ldt ps s pos (by omega)⟩

/-- C10 witness: the exit key of row 2 on a concrete sweep, and
preservation of position 23's timestamp across a concrete pass. -/
theorem claim_C10_witness :
    (scanColsAux 2 rawNone 50 [0, 1, 2, 3, 4, 5, 6, 7, 8]
      (initScan ASCII) 0).2.2 = 28 ∧
    (runPasses [(rawNone, fun _ => 50)]
      (initScan ASCII)).lastDebounceTime 23 =
      (initScan ASCII).lastDebounceTime 23 :=
  ⟨claim_C10.1 2 rawNone 50 (initScan ASCII) 0 (by decide),
   claim_C10.2 23 (by decide) [(rawNone, fun _ => 50)] (initScan ASCII)⟩

end C64
